import Mathlib

/-!
# Verification of the NER pipeline (`src/pipelines/ner.rs`)

Shallow embedding of the named-entity extraction pipeline of `rust-bert`:
`NERModel::new` wraps a `TokenClassificationModel`, and `NERModel::predict`
drives it with fixed flags `(consolidate = true, sentence_split = false)`,
filters out tokens labeled with the sentinel `"O"` and maps the survivors
1:1 into `Entity` records.

The collaborator `TokenClassificationModel` lives in
`src/pipelines/token_classification.rs`, which is outside the sources in
scope; it is modelled from the spec as an opaque batch-prediction function
returning a flat, ordered token stream.  Scores are `f64` in Rust; the
pipeline performs no arithmetic on them (verbatim pass-through), so they
are modelled as rationals.
-/

namespace RustBert

/-- Modelled from the spec: the token result shape produced by the
`TokenClassificationModel` collaborator (`token_classification.rs` is not
among the sources): `{ text: string, score: float64, label: string }`. -/
structure Token where
  text : String
  score : ℚ
  label : String
  deriving Repr, DecidableEq

/-- Embeds `pub struct Entity { pub word: String, pub score: f64, pub label: String }`
from `src/pipelines/ner.rs`. -/
structure Entity where
  word : String
  score : ℚ
  label : String
  deriving Repr, DecidableEq

/-- Modelled from the spec: the `TokenClassificationModel` collaborator
(not among the sources), reduced to its one capability used by the NER
pipeline: `predict(inputs, consolidate, sentence_split)` returning one
flat, ordered sequence of token results covering all inputs. -/
structure TokenClassificationModel where
  predict : List String → Bool → Bool → List Token

/-- Embeds `pub struct NERModel { token_classification_model: TokenClassificationModel }`
from `src/pipelines/ner.rs`. -/
structure NERModel where
  token_classification_model : TokenClassificationModel

/-- Embeds `NERModel::new`:
`let model = TokenClassificationModel::new(ner_config)?; Ok(NERModel { token_classification_model: model })`.
The collaborator constructor `TokenClassificationModel::new` is not among
the sources, so it is passed in as `tcNew` (modelled from the spec:
`TokenClassifier::new(config) -> TokenClassifier | fails`); the `?`
operator becomes an `Except` match. -/
def NERModel.new {Config ε : Type} (tcNew : Config → Except ε TokenClassificationModel)
    (ner_config : Config) : Except ε NERModel :=
  match tcNew ner_config with
  | Except.error e => Except.error e
  | Except.ok model => Except.ok { token_classification_model := model }

/-- Embeds the body of `NERModel::predict`:
`self.token_classification_model.predict(input, true, false).into_iter()
 .filter(|token| token.label != "O")
 .map(|token| Entity { word: token.text, score: token.score, label: token.label })
 .collect()`. -/
def NERModel.predict (self : NERModel) (input : List String) : List Entity :=
  ((self.token_classification_model.predict input true false).filter
      (fun token => token.label != "O")).map
    (fun token => { word := token.text, score := token.score, label := token.label })

/-- The filter-and-map step of `NERModel::predict` on an already obtained
token stream (the part of the body after the collaborator call). -/
def extractEntities (tokens : List Token) : List Entity :=
  (tokens.filter (fun token => token.label != "O")).map
    (fun token => { word := token.text, score := token.score, label := token.label })

/-- `predict` with its single collaborator call made observable: the result
together with the list of calls `(inputs, consolidate, sentence_split)`
issued to the collaborator.  The body of `NERModel::predict` contains
exactly one call site, `self.token_classification_model.predict(input, true, false)`. -/
def NERModel.predictTraced (self : NERModel) (input : List String) :
    List Entity × List (List String × Bool × Bool) :=
  let tokens := self.token_classification_model.predict input true false
  (extractEntities tokens, [(input, true, false)])

/-- One `predict` call as a state transformer on the extractor: Rust's
`pub fn predict(&self, ...)` takes `&self`, so the extractor state after
the call is the state before it. -/
def NERModel.predictCall (self : NERModel) (input : List String) :
    List Entity × NERModel :=
  (self.predict input, self)

/-! ## Stub collaborators used to exercise the theorems on concrete inputs -/

/-- Token stream for the first sample sentence
`"My name is Amy. I live in Paris."` (spec §8 end-to-end scenario). -/
def sampleTokensA : List Token :=
  [⟨"My", 51/100, "O"⟩, ⟨"name", 52/100, "O"⟩, ⟨"is", 53/100, "O"⟩,
   ⟨"Amy", 9986/10000, "I-PER"⟩, ⟨".", 54/100, "O"⟩,
   ⟨"I", 55/100, "O"⟩, ⟨"live", 56/100, "O"⟩, ⟨"in", 57/100, "O"⟩,
   ⟨"Paris", 9985/10000, "I-LOC"⟩, ⟨".", 58/100, "O"⟩]

/-- Token stream for the second sample sentence `"Paris is a city in France."`. -/
def sampleTokensB : List Token :=
  [⟨"Paris", 9988/10000, "I-LOC"⟩, ⟨"is", 61/100, "O"⟩, ⟨"a", 62/100, "O"⟩,
   ⟨"city", 63/100, "O"⟩, ⟨"in", 64/100, "O"⟩, ⟨"France", 9993/10000, "I-LOC"⟩,
   ⟨".", 65/100, "O"⟩]

/-- Deterministic stub collaborator returning the fixed two-sentence token
stream of the spec whatever the batch. -/
def stubClassifier : TokenClassificationModel :=
  ⟨fun _ _ _ => sampleTokensA ++ sampleTokensB⟩

def stubModel : NERModel := ⟨stubClassifier⟩

def sampleInput : List String :=
  ["My name is Amy. I live in Paris.", "Paris is a city in France."]

/-- Stub collaborator emitting labels that are near, but not equal to, the
sentinel `"O"`: lowercase `"o"`, the digit `"0"`, `"O "` with trailing
whitespace, the empty string, and one genuine sentinel token. -/
def oddLabelClassifier : TokenClassificationModel :=
  ⟨fun _ _ _ =>
    [⟨"w1", 1/2, "o"⟩, ⟨"w2", 1/2, "0"⟩, ⟨"w3", 1/2, "O "⟩,
     ⟨"w4", 1/2, ""⟩, ⟨"w5", 1/2, "O"⟩]⟩

def oddLabelModel : NERModel := ⟨oddLabelClassifier⟩

/-- Stub collaborator returning no tokens at all (e.g. an empty batch). -/
def emptyClassifier : TokenClassificationModel := ⟨fun _ _ _ => []⟩

def emptyModel : NERModel := ⟨emptyClassifier⟩

/-! ## Claim theorems -/

/-- C1: for every token stream returned by the collaborator, no `Entity` in
the output of `NERModel.predict` has label equal to the sentinel `"O"`:
tokens labeled `"O"` are dropped and every returned label differs from `"O"`. -/
theorem predict_label_ne_sentinel (self : NERModel) (input : List String) :
    ∀ e ∈ self.predict input, e.label ≠ "O" := by
  intro e he
  simp only [NERModel.predict, List.mem_map, List.mem_filter] at he
  obtain ⟨t, ⟨_, hlab⟩, rfl⟩ := he
  simpa using hlab

/-- C1 witness: on the deterministic stub, the first returned entity has a
label, and that label is not `"O"`. -/
theorem predict_label_ne_sentinel_witness :
    (⟨"Amy", 9986/10000, "I-PER"⟩ : Entity).label ≠ "O" :=
  predict_label_ne_sentinel stubModel sampleInput
    ⟨"Amy", 9986/10000, "I-PER"⟩
    (by simp [stubModel, stubClassifier, sampleTokensA, sampleTokensB,
          NERModel.predict])

/-- C2: field fidelity. The `i`-th output entity of `predict` is built from
the `i`-th surviving token by copying `text`, `score`, `label` verbatim into
`word`, `score`, `label`; no transformation, rounding or relabeling. -/
theorem predict_field_fidelity (self : NERModel) (input : List String) (i : ℕ) :
    (self.predict input)[i]?
      = (((self.token_classification_model.predict input true false).filter
            (fun t => t.label != "O"))[i]?).map
          (fun t => { word := t.text, score := t.score, label := t.label }) := by
  simp [NERModel.predict]

/-- C3: order preservation. If the collaborator's flat stream for the batch
`[A, B]` is the tokens of `A` followed by the tokens of `B`, then the output
is the entities extracted from `A`'s tokens followed by those from `B`'s. -/
theorem predict_order_preserving (self : NERModel) (A B : String)
    (ta tb : List Token)
    (h : self.token_classification_model.predict [A, B] true false = ta ++ tb) :
    self.predict [A, B] = extractEntities ta ++ extractEntities tb := by
  simp [NERModel.predict, extractEntities, h, List.filter_append]

/-- C3 witness: on the deterministic stub over the spec's two sample
sentences, the output splits as first-sentence entities then
second-sentence entities. -/
theorem predict_order_preserving_witness :
    stubModel.predict sampleInput
      = extractEntities sampleTokensA ++ extractEntities sampleTokensB :=
  predict_order_preserving stubModel
    "My name is Amy. I live in Paris." "Paris is a city in France."
    sampleTokensA sampleTokensB rfl

/-- C4: no merging. Each surviving token yields exactly one entity, so the
output length equals the number of stream tokens whose label is not `"O"`,
and is at most the total token count of the batch. -/
theorem predict_no_merging (self : NERModel) (input : List String) :
    (self.predict input).length
        = (self.token_classification_model.predict input true false).countP
            (fun t => t.label != "O")
      ∧ (self.predict input).length
          ≤ (self.token_classification_model.predict input true false).length := by
  constructor
  · simp [NERModel.predict, List.countP_eq_length_filter]
  · simpa [NERModel.predict] using
      List.length_filter_le (fun t => t.label != "O")
        (self.token_classification_model.predict input true false)

/-- C5: `predict` issues exactly one collaborator call, carrying the full
input batch and the fixed flags `consolidate = true`,
`sentence_split = false`, and its result is the filtered-and-mapped value
of that one call. -/
theorem predict_single_call_fixed_flags (self : NERModel) (input : List String) :
    (self.predictTraced input).2 = [(input, true, false)]
      ∧ (self.predictTraced input).1 = self.predict input :=
  ⟨rfl, rfl⟩

/-- C6: whenever the collaborator returns no entity-labeled token for the
batch (in particular when it returns no tokens at all, as for an empty
batch or all-empty strings), `predict` returns the empty sequence; the
embedding is a total function, so this is a success outcome, not an error. -/
theorem predict_empty_on_no_entities (self : NERModel) (input : List String)
    (h : ∀ t ∈ self.token_classification_model.predict input true false,
        t.label = "O") :
    self.predict input = [] := by
  simp only [NERModel.predict, List.map_eq_nil_iff, List.filter_eq_nil_iff]
  intro t ht
  simpa using h t ht

/-- C6 witness: on the collaborator returning no tokens for the empty
batch, `predict` returns the empty sequence. -/
theorem predict_empty_on_no_entities_witness : emptyModel.predict [] = [] :=
  predict_empty_on_no_entities emptyModel [] (by intro t ht; cases ht)

/-- C7: `NERModel.new` fails exactly when the collaborator constructor
fails, propagating the very same error, and on success returns a model
owning exactly the one constructed classifier. -/
theorem new_propagates_construction_failure {Config ε : Type}
    (tcNew : Config → Except ε TokenClassificationModel) (ner_config : Config) :
    (∀ e : ε, NERModel.new tcNew ner_config = Except.error e
        ↔ tcNew ner_config = Except.error e)
      ∧ (∀ model, tcNew ner_config = Except.ok model
          → NERModel.new tcNew ner_config
              = Except.ok { token_classification_model := model }) := by
  cases hc : tcNew ner_config with
  | error e₂ =>
      constructor
      · intro e
        unfold NERModel.new
        rw [hc]
        simp
      · intro model h
        cases h
  | ok model₂ =>
      constructor
      · intro e
        unfold NERModel.new
        rw [hc]
        simp
      · intro model h
        cases h
        unfold NERModel.new
        rw [hc]

/-- C7 witness: a collaborator constructor that fails with error code `7`
makes `NERModel.new` fail with error code `7`. -/
theorem new_propagates_construction_failure_witness :
    NERModel.new (fun _ : Unit => (Except.error 7 : Except ℕ TokenClassificationModel)) ()
      = Except.error 7 :=
  ((new_propagates_construction_failure
      (fun _ : Unit => (Except.error 7 : Except ℕ TokenClassificationModel)) ()).1 7).mpr rfl

/-- C8: `predict` takes the extractor by shared reference: a call leaves the
extractor state unchanged, and a second call on the post-state with the
same input yields the identical output sequence. -/
theorem predict_deterministic_stateless (self : NERModel) (input : List String) :
    (self.predictCall input).2 = self
      ∧ ((self.predictCall input).2.predictCall input).1
          = (self.predictCall input).1 :=
  ⟨rfl, rfl⟩

/-- C9: scores pass through verbatim, so whenever every collaborator token
score lies in `[0, 1]`, every returned entity score lies in `[0, 1]`. -/
theorem predict_score_in_unit_interval (self : NERModel) (input : List String)
    (h : ∀ t ∈ self.token_classification_model.predict input true false,
        0 ≤ t.score ∧ t.score ≤ 1) :
    ∀ e ∈ self.predict input, 0 ≤ e.score ∧ e.score ≤ 1 := by
  intro e he
  simp only [NERModel.predict, List.mem_map, List.mem_filter] at he
  obtain ⟨t, ⟨ht, _⟩, rfl⟩ := he
  exact h t ht

/-- C9 witness: on the deterministic stub, whose scores all lie in `[0, 1]`,
the `"Amy"` entity's score lies in `[0, 1]`. -/
theorem predict_score_in_unit_interval_witness :
    0 ≤ (⟨"Amy", 9986/10000, "I-PER"⟩ : Entity).score
      ∧ (⟨"Amy", 9986/10000, "I-PER"⟩ : Entity).score ≤ 1 :=
  predict_score_in_unit_interval stubModel sampleInput
    (by norm_num [stubModel, stubClassifier, sampleTokensA, sampleTokensB])
    ⟨"Amy", 9986/10000, "I-PER"⟩
    (by simp [stubModel, stubClassifier, sampleTokensA, sampleTokensB,
          NERModel.predict])

/-- C10: the sentinel test is exact, case-sensitive string equality with
`"O"`: any stream token whose label is any other string survives the filter
and appears in the output with its fields, label included, verbatim. -/
theorem predict_sentinel_test_exact (self : NERModel) (input : List String)
    (t : Token)
    (ht : t ∈ self.token_classification_model.predict input true false)
    (hlab : t.label ≠ "O") :
    ({ word := t.text, score := t.score, label := t.label } : Entity)
      ∈ self.predict input := by
  simp only [NERModel.predict, List.mem_map]
  exact ⟨t, List.mem_filter.mpr ⟨ht, by simpa using hlab⟩, rfl⟩

/-- C10 witness: a token labeled with lowercase `"o"` — not the sentinel
`"O"` — survives the filter and is returned with that label verbatim. -/
theorem predict_sentinel_test_exact_witness :
    ({ word := "w1", score := 1/2, label := "o" } : Entity)
      ∈ oddLabelModel.predict ["x"] :=
  predict_sentinel_test_exact oddLabelModel ["x"] ⟨"w1", 1/2, "o"⟩
    (by simp [oddLabelModel, oddLabelClassifier]) (by decide)

end RustBert
